import Mathlib

/-!
Verification of the monthly-opp-reviewer-app core against its specification.

The development shallowly embeds the Python sources:
  * `src/token_manager.py`   — the in-memory OAuth token cache (`TokenManager`),
  * `src/bedrock_extractor.py` — the structured-extraction client
    (`BedrockExtractor.extract_contract_info`),
  * `src/get_closed_opportunities.py` — the PDF text extractor
    (`extract_text_from_pdf`).

Times are modelled as integers (seconds); `timedelta(minutes=5)` is `300`,
`timedelta(hours=2)` is `7200`.  Each Python `datetime.now()` inside a single
operation is modelled by one `now : Int` parameter of that operation.
External effects (the HTTP token exchange, the Bedrock model invocation, the
PDF library) are modelled by explicit result values passed as parameters.
-/

namespace OppReviewer

/-! ## Token manager (`src/token_manager.py`) -/

/-- The `TokenManager._token_data` dictionary.  `None` fields are `Option.none`. -/
structure TokenData where
  access_token : Option String
  instance_url : Option String
  token_type : String
  issued_at : Option Int
  expires_at : Option Int
deriving DecidableEq, Repr

/-- The class-level initial `_token_data` dictionary. -/
def initialTokenData : TokenData :=
  { access_token := none
    instance_url := none
    token_type := "Bearer"
    issued_at := none
    expires_at := none }

/-- Python truthiness of an optional string: `None` and `""` are falsy. -/
def py_truthy : Option String → Bool
  | none => false
  | some s => !s.isEmpty

/-- The configuration fields of `config.settings` that the token manager reads. -/
structure Settings where
  salesforce_consumer_key : Option String
  salesforce_consumer_secret : Option String
  salesforce_instance_url : Option String
deriving DecidableEq, Repr

/-- `TokenManager._is_token_valid`, with the current time passed explicitly.

```
if not self._token_data["expires_at"]:
    if self._token_data["issued_at"]:
        expires_at = self._token_data["issued_at"] + timedelta(hours=2)
        return datetime.now() < expires_at
    return True
buffer_time = timedelta(minutes=5)
return datetime.now() < (self._token_data["expires_at"] - buffer_time)
``` -/
def is_token_valid (td : TokenData) (now : Int) : Bool :=
  match td.expires_at with
  | none =>
    match td.issued_at with
    | some issued => decide (now < issued + 7200)
    | none => true
  | some expires => decide (now < expires - 300)

/-- The JSON body of a successful (HTTP 200) token-exchange response.
A field the server omitted is `none`. -/
structure TokenResponse where
  access_token : Option String
  instance_url : Option String
  token_type : Option String
  expires_in : Option Int
deriving DecidableEq, Repr

/-- Outcome of `requests.post(token_url, data=payload)` as observed by
`_fetch_token_client_credentials`: a parsed HTTP 200 JSON body, a non-200
response with its status and text, or a raised network-level exception. -/
inductive HttpResult where
  | ok (info : TokenResponse)
  | httpError (status : Nat) (text : String)
  | netError (msg : String)
deriving DecidableEq, Repr

/-- `TokenManager._fetch_token_client_credentials`.  Returns the raised
exception (as `Except.error`) or success, together with the token store
after the call.  On HTTP 200 the store is overwritten field by field
(`token_info.get(...)`, `issued_at = datetime.now()`, and
`expires_at = now + expires_in` or `now + 2h` when `expires_in` is absent);
on a non-200 response an exception is raised before any store write, and a
network error propagates through the re-raising `except` block, so in both
failure cases the store is unchanged.  The method contains no retry loop. -/
def fetch_token_client_credentials (td : TokenData) (resp : HttpResult) (now : Int) :
    Except String Unit × TokenData :=
  match resp with
  | .ok info =>
    (.ok (),
      { access_token := info.access_token
        instance_url := info.instance_url
        token_type := info.token_type.getD "Bearer"
        issued_at := some now
        expires_at := some (now + (match info.expires_in with
          | some n => n
          | none => 7200)) })
  | .httpError status text =>
    (.error ("Failed to get token: " ++ toString status ++ " - " ++ text), td)
  | .netError msg => (.error msg, td)

/-- `TokenManager.get_access_token`, with the outcome of the (at most one)
HTTP exchange passed explicitly.  Returns the optional token together with
the store after the call.

```
if self._token_data["access_token"] and self._is_token_valid():
    return self._token_data["access_token"]
if settings.salesforce_consumer_key and settings.salesforce_consumer_secret:
    try:
        self._fetch_token_client_credentials()
        if self._token_data["access_token"]:
            return self._token_data["access_token"]
    except Exception as e:
        logger.warning(...)
return None
``` -/
def get_access_token (st : Settings) (td : TokenData) (resp : HttpResult) (now : Int) :
    Option String × TokenData :=
  if py_truthy td.access_token && is_token_valid td now then
    (td.access_token, td)
  else if py_truthy st.salesforce_consumer_key && py_truthy st.salesforce_consumer_secret then
    match fetch_token_client_credentials td resp now with
    | (.ok _, td') => if py_truthy td'.access_token then (td'.access_token, td') else (none, td')
    | (.error _, td') => (none, td')
  else
    (none, td)

/-- Python `a or b` on optional strings (used for `instance_url or settings...`). -/
def py_or (a b : Option String) : Option String :=
  if py_truthy a then a else b

/-- `TokenManager.set_token` (default `expires_in=7200`). -/
def set_token (st : Settings) (_td : TokenData) (tok : String) (url : Option String)
    (expires_in : Int) (now : Int) : TokenData :=
  { access_token := some tok
    instance_url := py_or url st.salesforce_instance_url
    token_type := "Bearer"
    issued_at := some now
    expires_at := some (now + expires_in) }

/-- `TokenManager.clear_token`: reset the store to the all-`None` dictionary. -/
def clear_token (_td : TokenData) : TokenData :=
  { access_token := none
    instance_url := none
    token_type := "Bearer"
    issued_at := none
    expires_at := none }

end OppReviewer

namespace OppReviewer

/-! ## JSON values and `json.loads` (library model)

`BedrockExtractor.extract_contract_info` calls Python's `json.loads`.  We
model JSON values with an inductive type; a Python `int` is `jint` and a
Python `float` produced from a literal with a fraction or exponent is kept
in its syntactic parts (`jfloat`), avoiding floating point.  The parser
below follows the RFC 8259 grammar that `json.loads` implements in strict
mode (control characters are rejected inside strings, leading zeros are
rejected, trailing non-whitespace input is "extra data").  The nonstandard
constants `NaN`/`Infinity` that CPython additionally accepts are not
modelled, as no claim involves them. -/

inductive Json where
  | null
  | bool (b : Bool)
  | jint (i : Int)
  | jfloat (intPart : Int) (frac : String) (exp : Int)
  | str (s : String)
  | arr (elems : List Json)
  | obj (fields : List (String × Json))

/-- Python-dict field lookup on a parsed object: the *last* binding of a key
wins, matching `dict` construction from duplicate keys; non-objects and
absent keys give `none`. -/
def Json.getField (j : Json) (key : String) : Option Json :=
  match j with
  | .obj fields => fields.foldl (fun acc kv => if kv.1 = key then some kv.2 else acc) none
  | _ => none

/-- Skip JSON whitespace (space, tab, newline, carriage return). -/
def skipWs : List Char → List Char
  | [] => []
  | c :: cs => if c = ' ' || c = '\t' || c = '\n' || c = '\r' then skipWs cs else c :: cs

/-- Value of a hex digit, if any. -/
def hexDigitVal (c : Char) : Option Nat :=
  if '0' ≤ c ∧ c ≤ '9' then some (c.toNat - '0'.toNat)
  else if 'a' ≤ c ∧ c ≤ 'f' then some (c.toNat - 'a'.toNat + 10)
  else if 'A' ≤ c ∧ c ≤ 'F' then some (c.toNat - 'A'.toNat + 10)
  else none

/-- Body of a JSON string, after the opening quote: processes escapes,
rejects raw control characters (strict mode), and stops at the closing
quote, returning the decoded string and the rest of the input. -/
def parseStringBody (fuel : Nat) (cs : List Char) (acc : List Char) :
    Option (String × List Char) :=
  match fuel with
  | 0 => none
  | fuel + 1 =>
    match cs with
    | [] => none
    | '"' :: rest => some (String.mk acc.reverse, rest)
    | '\\' :: e :: rest =>
      match e with
      | '"' => parseStringBody fuel rest ('"' :: acc)
      | '\\' => parseStringBody fuel rest ('\\' :: acc)
      | '/' => parseStringBody fuel rest ('/' :: acc)
      | 'b' => parseStringBody fuel rest (Char.ofNat 8 :: acc)
      | 'f' => parseStringBody fuel rest (Char.ofNat 12 :: acc)
      | 'n' => parseStringBody fuel rest ('\n' :: acc)
      | 'r' => parseStringBody fuel rest (Char.ofNat 13 :: acc)
      | 't' => parseStringBody fuel rest ('\t' :: acc)
      | 'u' =>
        match rest with
        | h1 :: h2 :: h3 :: h4 :: rest2 =>
          match hexDigitVal h1, hexDigitVal h2, hexDigitVal h3, hexDigitVal h4 with
          | some d1, some d2, some d3, some d4 =>
            parseStringBody fuel rest2 (Char.ofNat (((d1 * 16 + d2) * 16 + d3) * 16 + d4) :: acc)
          | _, _, _, _ => none
        | _ => none
      | _ => none
    | '\\' :: [] => none
    | c :: rest => if c.toNat < 32 then none else parseStringBody fuel rest (c :: acc)

/-- Take a maximal run of decimal digits. -/
def takeDigits : List Char → List Char × List Char
  | [] => ([], [])
  | c :: cs =>
    if c.isDigit then
      let (ds, rest) := takeDigits cs
      (c :: ds, rest)
    else ([], c :: cs)

/-- Decimal value of a digit run. -/
def digitsToNat (ds : List Char) : Nat :=
  ds.foldl (fun n c => n * 10 + (c.toNat - '0'.toNat)) 0

/-- Optional fraction part `.digits` of a number literal. -/
def parseFrac : List Char → Option (List Char) × List Char
  | '.' :: rest =>
    let (ds, rest2) := takeDigits rest
    if ds.isEmpty then (none, '.' :: rest) else (some ds, rest2)
  | cs => (none, cs)

/-- Optional exponent part `[eE][+-]?digits` of a number literal. -/
def parseExp : List Char → Option Int × List Char
  | c :: rest =>
    if c = 'e' || c = 'E' then
      let (sgn, rest1) : Int × List Char :=
        match rest with
        | '+' :: r => (1, r)
        | '-' :: r => (-1, r)
        | _ => (1, rest)
      let (ds, rest2) := takeDigits rest1
      if ds.isEmpty then (none, c :: rest) else (some (sgn * (digitsToNat ds : Int)), rest2)
    else (none, c :: rest)
  | [] => (none, [])

/-- Assemble a parsed number: an `int` when there is neither a fraction nor
an exponent, otherwise a `float` kept in literal parts. -/
def mkNumber (neg : Bool) (ip : Nat) (frac : Option (List Char)) (exp : Option Int) : Json :=
  let signed : Int := if neg then -(ip : Int) else (ip : Int)
  match frac, exp with
  | none, none => Json.jint signed
  | _, _ => Json.jfloat signed (String.mk (frac.getD [])) (exp.getD 0)

/-- Fraction and exponent tail of a number whose integer part is known. -/
def parseNumTail (neg : Bool) (ip : Nat) (cs : List Char) : Option (Json × List Char) :=
  let (frac, cs2) := parseFrac cs
  let (exp, cs3) := parseExp cs2
  some (mkNumber neg ip frac exp, cs3)

/-- A JSON number literal: optional minus, then `0` or a nonzero-led digit
run (leading zeros are rejected, as in strict `json.loads`), then optional
fraction and exponent. -/
def parseNumber (cs : List Char) : Option (Json × List Char) :=
  let (neg, cs1) : Bool × List Char :=
    match cs with
    | '-' :: rest => (true, rest)
    | _ => (false, cs)
  match cs1 with
  | c :: rest =>
    if c = '0' then parseNumTail neg 0 rest
    else if c.isDigit then
      let (ds, rest2) := takeDigits rest
      parseNumTail neg (digitsToNat (c :: ds)) rest2
    else none
  | [] => none

mutual

/-- A JSON value at the current position (no leading whitespace). -/
def parseValue : Nat → List Char → Option (Json × List Char)
  | 0, _ => none
  | fuel + 1, cs =>
    match cs with
    | [] => none
    | '{' :: rest => parseObjectRest fuel rest
    | '[' :: rest => parseArrayRest fuel rest
    | '"' :: rest =>
      match parseStringBody (rest.length + 1) rest [] with
      | some (s, r) => some (Json.str s, r)
      | none => none
    | 't' :: 'r' :: 'u' :: 'e' :: rest => some (Json.bool true, rest)
    | 'f' :: 'a' :: 'l' :: 's' :: 'e' :: rest => some (Json.bool false, rest)
    | 'n' :: 'u' :: 'l' :: 'l' :: rest => some (Json.null, rest)
    | c :: _ => if c = '-' || c.isDigit then parseNumber cs else none

/-- The inside of an object, after the opening `{`. -/
def parseObjectRest : Nat → List Char → Option (Json × List Char)
  | 0, _ => none
  | fuel + 1, cs =>
    match skipWs cs with
    | '}' :: rest => some (Json.obj [], rest)
    | cs1 => parseMembers fuel cs1 []

/-- Members of a non-empty object; `cs` starts at a key's opening quote. -/
def parseMembers : Nat → List Char → List (String × Json) →
    Option (Json × List Char)
  | 0, _, _ => none
  | fuel + 1, cs, acc =>
    match cs with
    | '"' :: rest =>
      match parseStringBody (rest.length + 1) rest [] with
      | none => none
      | some (key, rest1) =>
        match skipWs rest1 with
        | ':' :: rest2 =>
          match parseValue fuel (skipWs rest2) with
          | none => none
          | some (v, rest3) =>
            match skipWs rest3 with
            | ',' :: rest4 =>
              match skipWs rest4 with
              | cs5 => parseMembers fuel cs5 (acc ++ [(key, v)])
            | '}' :: rest4 => some (Json.obj (acc ++ [(key, v)]), rest4)
            | _ => none
        | _ => none
    | _ => none

/-- The inside of an array, after the opening `[`. -/
def parseArrayRest : Nat → List Char → Option (Json × List Char)
  | 0, _ => none
  | fuel + 1, cs =>
    match skipWs cs with
    | ']' :: rest => some (Json.arr [], rest)
    | cs1 => parseElems fuel cs1 []

/-- Elements of a non-empty array; `cs` starts at an element. -/
def parseElems : Nat → List Char → List Json → Option (Json × List Char)
  | 0, _, _ => none
  | fuel + 1, cs, acc =>
    match parseValue fuel cs with
    | none => none
    | some (v, rest) =>
      match skipWs rest with
      | ',' :: rest2 => parseElems fuel (skipWs rest2) (acc ++ [v])
      | ']' :: rest2 => some (Json.arr (acc ++ [v]), rest2)
      | _ => none

end

/-- Model of `json.loads`: leading/trailing whitespace is allowed around a
single JSON value; any trailing non-whitespace input is an error, as is any
malformed value.  `none` models a raised `json.JSONDecodeError`. -/
def json_loads (s : String) : Option Json :=
  let cs := skipWs s.data
  match parseValue (2 * cs.length + 2) cs with
  | some (v, rest) => if (skipWs rest).isEmpty then some v else none
  | none => none

end OppReviewer

namespace OppReviewer

/-! ## Structured extraction client (`src/bedrock_extractor.py`) -/

/-- Python `str.find(c)`: lowest index of `c`, or `-1`. -/
def py_find (s : String) (c : Char) : Int :=
  match s.data.findIdx? (· = c) with
  | some i => (i : Int)
  | none => -1

/-- Python `str.rfind(c)`: highest index of `c`, or `-1`. -/
def py_rfind (s : String) (c : Char) : Int :=
  match s.data.reverse.findIdx? (· = c) with
  | some i => ((s.data.length - 1 - i : Nat) : Int)
  | none => -1

/-- Python `s[a:b]` for `0 ≤ a`, `0 ≤ b` (the only case the code reaches). -/
def py_slice (s : String) (a b : Nat) : String :=
  String.mk ((s.data.drop a).take (b - a))

/-- The `{effective_date: None, total_amount: None, error: "Could not parse
response"}` dictionary returned when no `{`/`}` pair is found. -/
def couldNotParseResult : Json :=
  Json.obj [("effective_date", Json.null), ("total_amount", Json.null),
    ("error", Json.str "Could not parse response")]

/-- The dictionary returned when `json.loads` raises on the brace-delimited
substring: `error` carries the exception detail and `raw_response` the full
raw reply. -/
def jsonParsingErrorResult (detail : String) (raw : String) : Json :=
  Json.obj [("effective_date", Json.null), ("total_amount", Json.null),
    ("error", Json.str ("JSON parsing error: " ++ detail)),
    ("raw_response", Json.str raw)]

/-- The dictionary returned when the outer `try` catches a service-level
exception. -/
def bedrockApiErrorResult (detail : String) : Json :=
  Json.obj [("effective_date", Json.null), ("total_amount", Json.null),
    ("error", Json.str ("Bedrock API error: " ++ detail))]

/-- The response-parsing stage of `BedrockExtractor.extract_contract_info`
(lines 127–151): locate the first `{` and the last `}`, parse the
substring, and fall back to the error dictionaries.  `errDetail` models
`str(e)` of the `json.JSONDecodeError`, whose exact text depends on the
CPython library.

```
start_idx = response_text.find('{')
end_idx = response_text.rfind('}') + 1
if start_idx != -1 and end_idx > start_idx:
    json_str = response_text[start_idx:end_idx]
    result = json.loads(json_str)
    return result
else:
    return {... "error": "Could not parse response"}
except json.JSONDecodeError as e:
    return {... "error": f"JSON parsing error: {str(e)}", "raw_response": response_text}
``` -/
def parse_model_reply (errDetail : String) (response_text : String) : Json :=
  let start_idx := py_find response_text '{'
  let end_idx := py_rfind response_text '}' + 1
  if start_idx ≠ -1 ∧ end_idx > start_idx then
    match json_loads (py_slice response_text start_idx.toNat end_idx.toNat) with
    | some result => result
    | none => jsonParsingErrorResult errDetail response_text
  else
    couldNotParseResult

/-- `BedrockExtractor.extract_contract_info` as observed by its caller.  The
outer `try` wraps the `invoke_model` call, the reading and JSON-decoding of
the service response body, and the indexing of the reply text out of it, so
every service-level failure reaches the final `except Exception` block;
`service` is `.ok response_text` when a raw text reply was obtained and
`.error detail` when any of those steps raised.  The function is total:
every outcome is returned as a result dictionary, never raised. -/
def extract_contract_info (service : Except String String) (errDetail : String) : Json :=
  match service with
  | .error e => bedrockApiErrorResult e
  | .ok response_text => parse_model_reply errDetail response_text

/-! ## PDF text extraction (`src/get_closed_opportunities.py`) -/

/-- A PDF as seen through `PyPDF2.PdfReader`: either opening/parsing the
document itself raises (`unreadable`), or it yields a list of pages, each of
whose `extract_text()` either returns text or raises. -/
inductive PdfDoc where
  | unreadable (msg : String)
  | pages (ps : List (Except String String))
deriving Repr

/-- One iteration of the page loop: the segment appended to `text` for page
index `page_num` (0-based, displayed 1-based).

```
try:
    page_text = page.extract_text()
    text += f"\n--- Page {page_num + 1} ---\n{page_text}"
except Exception as page_e:
    text += f"\n--- Page {page_num + 1} (Error extracting text) ---\n"
``` -/
def page_segment (page_num : Nat) (p : Except String String) : String :=
  match p with
  | .ok page_text => "\n--- Page " ++ toString (page_num + 1) ++ " ---\n" ++ page_text
  | .error _ => "\n--- Page " ++ toString (page_num + 1) ++ " (Error extracting text) ---\n"

/-- The accumulating page loop of `extract_text_from_pdf`. -/
def extract_loop (ps : List (Except String String)) (page_num : Nat) (text : String) : String :=
  match ps with
  | [] => text
  | p :: rest => extract_loop rest (page_num + 1) (text ++ page_segment page_num p)

/-- Python whitespace for `str.strip()` (the ASCII part; the further Unicode
space characters Python also strips do not occur in the page markers). -/
def isPyWs (c : Char) : Bool :=
  c = ' ' || c = '\t' || c = '\n' || c = '\x0d' || c = '\x0b' || c = '\x0c'

/-- Model of Python `str.strip()`: drop whitespace from both ends. -/
def py_strip (s : String) : String :=
  String.mk (((s.data.dropWhile isPyWs).reverse.dropWhile isPyWs).reverse)

/-- `extract_text_from_pdf`: `none` models the `return None` taken when
`PdfReader` raises (the PDF cannot be opened at all); otherwise the loop
accumulates one segment per page and the result is `text.strip()`. -/
def extract_text_from_pdf (doc : PdfDoc) : Option String :=
  match doc with
  | .unreadable _ => none
  | .pages ps => some (py_strip (extract_loop ps 0 ""))

end OppReviewer

namespace OppReviewer

/-! ## Concrete inputs used in the testable properties -/

/-- The raw model reply of the spec's structured-extraction example. -/
def exReply : String :=
  "Here you go: \x7b\"effective_date\": \"2024-01-15\", \"total_amount\": 1500\x7d\nThanks"

/-- The dictionary the spec expects for `exReply`. -/
def exObj : Json :=
  Json.obj [("effective_date", Json.str "2024-01-15"), ("total_amount", Json.jint 1500)]

/-- The token-store invariant of the spec's data model: if `access_token`
is present, `issued_at` is present. -/
def token_invariant (td : TokenData) : Prop :=
  td.access_token.isSome = true → td.issued_at.isSome = true

/-- The specification's description of the page loop's output: the
concatenation of one page-delimited segment per page, in page order
(compared against the accumulator loop `extract_loop` of the source). -/
def pages_concat : List (Except String String) → Nat → String
  | [], _ => ""
  | p :: rest, n => page_segment n p ++ pages_concat rest (n + 1)

/-! ## Helper lemmas about `py_find` / `py_rfind` -/

theorem py_find_eq_neg_one {s : String} {c : Char} (h : c ∉ s.data) :
    py_find s c = -1 := by
  have hn : s.data.findIdx? (· = c) = none := by
    rw [List.findIdx?_eq_none_iff]
    intro x hx
    simp only [decide_eq_false_iff_not]
    rintro rfl
    exact h hx
  simp [py_find, hn]

theorem py_find_mem_spec {s : String} {c : Char} (h : c ∈ s.data) :
    ∃ i : Nat, py_find s c = (i : Int) ∧
      ∃ hi : i < s.data.length, s.data.get ⟨i, hi⟩ = c := by
  rcases hs : s.data.findIdx? (· = c) with _ | i
  · rw [List.findIdx?_eq_none_iff] at hs
    have := hs c h
    simp at this
  · rcases List.findIdx?_eq_some_iff_getElem.mp hs with ⟨hi, hc, _⟩
    exact ⟨i, by simp [py_find, hs], hi, by simpa using hc⟩

theorem py_rfind_mem_spec {s : String} {c : Char} (h : c ∈ s.data) :
    ∃ j : Nat, py_rfind s c = (j : Int) ∧
      ∃ hj : j < s.data.length, s.data.get ⟨j, hj⟩ = c := by
  rcases hs : s.data.reverse.findIdx? (· = c) with _ | j0
  · rw [List.findIdx?_eq_none_iff] at hs
    have := hs c (by simpa using h)
    simp at this
  · rcases List.findIdx?_eq_some_iff_getElem.mp hs with ⟨hj0, hc, _⟩
    have hlen : j0 < s.data.length := by simpa using hj0
    refine ⟨s.data.length - 1 - j0, by simp [py_rfind, hs], by omega, ?_⟩
    have hrev := List.getElem_reverse (l := s.data) (i := j0) hj0
    have hc2 : s.data.reverse[j0] = c := by simpa using hc
    rw [hrev] at hc2
    simpa [List.get_eq_getElem] using hc2

/-! ## Claim theorems -/

/-- C1 (counterexample): for the raw reply `"{not valid json"` the claim
asserts `raw_response` equals the full input string; in the code
`rfind('}')` is `-1`, so `end_idx = 0 > start_idx = 0` fails and the
"Could not parse response" dictionary — which has no `raw_response` key —
is returned instead. -/
theorem C1_counterexample :
    (extract_contract_info (.ok "\x7bnot valid json") "").getField "raw_response" ≠
      some (Json.str "\x7bnot valid json") :=
  fun h => Option.noConfusion h

/-- C1 (amended): for the model reply `"{not valid json"` (a `'{'` but no
`'}'`), `extract_contract_info` returns the `{effective_date: null,
total_amount: null, error: "Could not parse response"}` dictionary: the
`error` field is non-null but there is no `raw_response` field. -/
theorem C1_no_close_brace (d : String) :
    extract_contract_info (.ok "\x7bnot valid json") d = couldNotParseResult ∧
    couldNotParseResult.getField "error" = some (Json.str "Could not parse response") ∧
    couldNotParseResult.getField "raw_response" = none :=
  ⟨rfl, rfl, rfl⟩

/-- C1 witness: the amended theorem applied at a concrete error detail. -/
theorem C1_no_close_brace_witness :
    extract_contract_info (.ok "\x7bnot valid json") "" = couldNotParseResult :=
  (C1_no_close_brace "").1

/-- C2 (counterexample): the claim asserts `refresh` stores `endpoint_url`
falling back to the prior stored value when the server omits it; the code
stores `token_info.get('instance_url')`, which is `None` when omitted, so
a prior value `"https://prior.example"` is not kept. -/
theorem C2_counterexample :
    (fetch_token_client_credentials
      { access_token := some "old", instance_url := some "https://prior.example",
        token_type := "Bearer", issued_at := some 0, expires_at := some 1000 }
      (.ok { access_token := some "newtok", instance_url := none,
             token_type := none, expires_in := none }) 50).2.instance_url ≠
      some "https://prior.example" := by
  intro h
  exact Option.noConfusion h

/-- C2 (amended): on every HTTP 200 token response, `refresh` stores the
returned `access_token`, stores `endpoint_url` as the server-supplied value
(absent when the server omits it — no fallback to the prior stored value),
sets `issued_at` to the current time, and sets `expires_at` to exactly
`issued_at + expires_in` seconds when the server supplies `expires_in`
and to exactly `issued_at + 7200` seconds when it is omitted. -/
theorem C2_refresh_success_stores (td : TokenData) (info : TokenResponse) (now : Int) :
    (fetch_token_client_credentials td (.ok info) now).2.access_token = info.access_token ∧
    (fetch_token_client_credentials td (.ok info) now).2.instance_url = info.instance_url ∧
    (fetch_token_client_credentials td (.ok info) now).2.issued_at = some now ∧
    (∀ n : Int, info.expires_in = some n →
      (fetch_token_client_credentials td (.ok info) now).2.expires_at = some (now + n)) ∧
    (info.expires_in = none →
      (fetch_token_client_credentials td (.ok info) now).2.expires_at = some (now + 7200)) := by
  refine ⟨rfl, rfl, rfl, ?_, ?_⟩
  · intro n hn
    simp [fetch_token_client_credentials, hn]
  · intro hn
    simp [fetch_token_client_credentials, hn]

/-- C2 witness: with `expires_in = 3600` at `now = 0`, the stored expiry is
`0 + 3600`. -/
theorem C2_refresh_success_stores_witness :
    (fetch_token_client_credentials initialTokenData
      (.ok { access_token := some "tok", instance_url := some "https://x",
             token_type := none, expires_in := some 3600 }) 0).2.expires_at =
      some (0 + 3600) :=
  (C2_refresh_success_stores initialTokenData
    { access_token := some "tok", instance_url := some "https://x",
      token_type := none, expires_in := some 3600 } 0).2.2.2.1 3600 rfl

/-- C4: every service-level failure of the Bedrock call is caught and
returned as `{effective_date: null, total_amount: null,
error: "Bedrock API error: <detail>"}`, and a successful call hands the raw
reply to the response-parsing stage; `extract_contract_info` is a total
function of the service outcome, so it never raises to its caller. -/
theorem C4_service_failure_captured (e d text : String) :
    extract_contract_info (.error e) d = bedrockApiErrorResult e ∧
    (bedrockApiErrorResult e).getField "error" =
      some (Json.str ("Bedrock API error: " ++ e)) ∧
    (bedrockApiErrorResult e).getField "effective_date" = some Json.null ∧
    (bedrockApiErrorResult e).getField "total_amount" = some Json.null ∧
    extract_contract_info (.ok text) d = parse_model_reply d text :=
  ⟨rfl, rfl, rfl, rfl, rfl⟩

/-- C6: on a non-200 response or a network error, the token exchange leaves
every field of the store unchanged and surfaces the failure as a raised
exception (the method performs no retry: each invocation issues at most one
exchange). -/
theorem C6_refresh_failure_leaves_store (td : TokenData) (now : Int) :
    (∀ status text,
      (fetch_token_client_credentials td (.httpError status text) now).2 = td) ∧
    (∀ status text,
      (fetch_token_client_credentials td (.httpError status text) now).1 =
        .error ("Failed to get token: " ++ toString status ++ " - " ++ text)) ∧
    (∀ msg, (fetch_token_client_credentials td (.netError msg) now).2 = td) ∧
    (∀ msg, (fetch_token_client_credentials td (.netError msg) now).1 = .error msg) :=
  ⟨fun _ _ => rfl, fun _ _ => rfl, fun _ => rfl, fun _ => rfl⟩

/-- C3: the `_is_token_valid` policy.  With `expires_at` set the token is
valid exactly when the current time is strictly more than the 5-minute
(300 s) buffer before `expires_at` (hence false within 5 minutes of expiry
and true at `expires_at - 360`); with only `issued_at` set it is valid
exactly until 2 hours (7200 s) after issuance and false afterwards; with
neither set it is treated as valid. -/
theorem C3_is_token_valid_policy :
    (∀ (td : TokenData) (now e : Int), td.expires_at = some e →
      (is_token_valid td now = true ↔ now < e - 300)) ∧
    (∀ (td : TokenData) (now e : Int), td.expires_at = some e → e - 300 ≤ now →
      is_token_valid td now = false) ∧
    (∀ (td : TokenData) (e : Int), td.expires_at = some e →
      is_token_valid td (e - 360) = true) ∧
    (∀ (td : TokenData) (now i : Int), td.expires_at = none → td.issued_at = some i →
      (is_token_valid td now = true ↔ now < i + 7200)) ∧
    (∀ (td : TokenData) (now i : Int), td.expires_at = none → td.issued_at = some i →
      i + 7200 ≤ now → is_token_valid td now = false) ∧
    (∀ (td : TokenData) (now : Int), td.expires_at = none → td.issued_at = none →
      is_token_valid td now = true) := by
  refine ⟨?_, ?_, ?_, ?_, ?_, ?_⟩
  · intro td now e h
    simp [is_token_valid, h]
  · intro td now e h hle
    simp only [is_token_valid, h, decide_eq_false_iff_not]
    omega
  · intro td e h
    simp only [is_token_valid, h, decide_eq_true_eq]
    omega
  · intro td now i h1 h2
    simp [is_token_valid, h1, h2]
  · intro td now i h1 h2 hle
    simp only [is_token_valid, h1, h2, decide_eq_false_iff_not]
    omega
  · intro td now h1 h2
    simp [is_token_valid, h1, h2]

/-- C3 witness: a token expiring at `1000` is valid at time `640` (6 minutes
before expiry) and invalid at time `700` (exactly 5 minutes before). -/
theorem C3_is_token_valid_policy_witness :
    is_token_valid
      { access_token := some "t", instance_url := none, token_type := "Bearer",
        issued_at := some 0, expires_at := some 1000 } 640 = true ∧
    is_token_valid
      { access_token := some "t", instance_url := none, token_type := "Bearer",
        issued_at := some 0, expires_at := some 1000 } 700 = false :=
  ⟨C3_is_token_valid_policy.2.2.1 _ 1000 rfl,
   C3_is_token_valid_policy.2.1 _ 700 1000 rfl (by decide)⟩

/-- C5: the response-parsing stage parses the substring of the raw reply
from the first `{` to the last `}` as JSON; on success the parsed object is
returned unchanged (no schema validation), the spec's example reply yields
exactly `{effective_date: "2024-01-15", total_amount: 1500}`, and a reply
containing no braces at all yields `{effective_date: null,
total_amount: null, error: "Could not parse response"}`. -/
theorem C5_parse_passthrough :
    (∀ (d text : String) (v : Json),
      py_find text '{' ≠ -1 →
      py_rfind text '}' + 1 > py_find text '{' →
      json_loads (py_slice text (py_find text '{').toNat
        (py_rfind text '}' + 1).toNat) = some v →
      parse_model_reply d text = v) ∧
    (∀ d : String, parse_model_reply d exReply = exObj) ∧
    (∀ d text : String, '{' ∉ text.data → '}' ∉ text.data →
      parse_model_reply d text = couldNotParseResult) := by
  refine ⟨?_, ?_, ?_⟩
  · intro d text v h1 h2 h3
    simp only [parse_model_reply]
    rw [if_pos ⟨h1, h2⟩, h3]
  · intro d
    rfl
  · intro d text h1 _
    have hf := py_find_eq_neg_one h1
    simp only [parse_model_reply]
    rw [if_neg]
    rintro ⟨hne, -⟩
    exact hne hf

/-- C5 witness: the passthrough branch applied to the spec's example reply. -/
theorem C5_parse_passthrough_witness :
    parse_model_reply "" exReply = exObj :=
  C5_parse_passthrough.1 "" exReply exObj (by decide) (by decide) rfl

/-- Helper: the store after `get_access_token` is either the prior store or
the store left by the token exchange. -/
theorem get_access_token_store_cases (st : Settings) (td : TokenData)
    (resp : HttpResult) (now : Int) :
    (get_access_token st td resp now).2 = td ∨
    (get_access_token st td resp now).2 = (fetch_token_client_credentials td resp now).2 := by
  simp only [get_access_token]
  split
  · exact Or.inl rfl
  · split
    · split
      · rename_i heq
        split
        · right; rw [heq]
        · right; rw [heq]
      · rename_i heq
        right; rw [heq]
    · exact Or.inl rfl

/-- Helper: the token exchange preserves the token-store invariant. -/
theorem fetch_preserves_invariant (td : TokenData) (resp : HttpResult) (now : Int)
    (h : token_invariant td) :
    token_invariant (fetch_token_client_credentials td resp now).2 := by
  cases resp with
  | ok info => intro _; rfl
  | httpError status text => exact h
  | netError msg => exact h

/-- C7: `get_access_token` returns the cached token (store untouched) when a
token is present and valid; otherwise it attempts a refresh only when both
client credentials are configured, returning the new token on success and
`None` on failure (the raised exception is caught, never re-raised), and
returns `None` without any exchange when credentials are not configured —
in particular after `clear()`. -/
theorem C7_get_access_token_policy :
    (∀ st td resp now, py_truthy td.access_token = true → is_token_valid td now = true →
      get_access_token st td resp now = (td.access_token, td)) ∧
    (∀ st td resp now,
      ¬(py_truthy td.access_token = true ∧ is_token_valid td now = true) →
      ¬(py_truthy st.salesforce_consumer_key = true ∧
        py_truthy st.salesforce_consumer_secret = true) →
      get_access_token st td resp now = (none, td)) ∧
    (∀ st td info now,
      ¬(py_truthy td.access_token = true ∧ is_token_valid td now = true) →
      py_truthy st.salesforce_consumer_key = true →
      py_truthy st.salesforce_consumer_secret = true →
      py_truthy info.access_token = true →
      get_access_token st td (.ok info) now =
        (info.access_token, (fetch_token_client_credentials td (.ok info) now).2)) ∧
    (∀ st td now status text,
      ¬(py_truthy td.access_token = true ∧ is_token_valid td now = true) →
      get_access_token st td (.httpError status text) now = (none, td)) ∧
    (∀ st td now msg,
      ¬(py_truthy td.access_token = true ∧ is_token_valid td now = true) →
      get_access_token st td (.netError msg) now = (none, td)) ∧
    (∀ st td resp now,
      ¬(py_truthy st.salesforce_consumer_key = true ∧
        py_truthy st.salesforce_consumer_secret = true) →
      get_access_token st (clear_token td) resp now = (none, clear_token td)) := by
  refine ⟨?_, ?_, ?_, ?_, ?_, ?_⟩
  · intro st td resp now h1 h2
    simp only [get_access_token]
    rw [if_pos (by simp only [Bool.and_eq_true]; exact ⟨h1, h2⟩)]
  · intro st td resp now h1 h2
    simp only [get_access_token]
    rw [if_neg (by simp only [Bool.and_eq_true]; exact h1),
      if_neg (by simp only [Bool.and_eq_true]; exact h2)]
  · intro st td info now h1 hk hs ht
    simp only [get_access_token]
    rw [if_neg (by simp only [Bool.and_eq_true]; exact h1),
      if_pos (by simp only [Bool.and_eq_true]; exact ⟨hk, hs⟩)]
    simp only [fetch_token_client_credentials]
    rw [if_pos ht]
  · intro st td now status text h1
    simp only [get_access_token]
    rw [if_neg (by simp only [Bool.and_eq_true]; exact h1)]
    by_cases hc : (py_truthy st.salesforce_consumer_key &&
        py_truthy st.salesforce_consumer_secret) = true
    · rw [if_pos hc]
      exact rfl
    · rw [if_neg hc]
  · intro st td now msg h1
    simp only [get_access_token]
    rw [if_neg (by simp only [Bool.and_eq_true]; exact h1)]
    by_cases hc : (py_truthy st.salesforce_consumer_key &&
        py_truthy st.salesforce_consumer_secret) = true
    · rw [if_pos hc]
      exact rfl
    · rw [if_neg hc]
  · intro st td resp now h2
    simp only [get_access_token]
    rw [if_neg (by simp [clear_token, py_truthy]),
      if_neg (by simp only [Bool.and_eq_true]; exact h2)]

/-- C7 witness: `clear()` followed by `get_access_token()` with no
configured credentials returns `None` and performs no exchange. -/
theorem C7_get_access_token_policy_witness :
    get_access_token
      { salesforce_consumer_key := none, salesforce_consumer_secret := none,
        salesforce_instance_url := none }
      (clear_token initialTokenData) (.netError "down") 0 =
      (none, clear_token initialTokenData) :=
  C7_get_access_token_policy.2.2.2.2.2
    { salesforce_consumer_key := none, salesforce_consumer_secret := none,
      salesforce_instance_url := none }
    initialTokenData (.netError "down") 0 (by decide)

/-- Helper: the accumulator loop of `extract_text_from_pdf` computes the
in-order concatenation of the page segments. -/
theorem extract_loop_eq_concat (ps : List (Except String String)) :
    ∀ (n : Nat) (t : String), extract_loop ps n t = t ++ pages_concat ps n := by
  induction ps with
  | nil => intro n t; simp [extract_loop, pages_concat]
  | cons p rest ih =>
    intro n t
    simp [extract_loop, pages_concat, ih, String.append_assoc]

/-- C8: for a PDF that opens, `extract_text_from_pdf` returns the stripped
concatenation of one page-delimited segment per page in page order; a page
whose extraction raises contributes an error-marker segment and the loop
continues; a zero-page document yields the empty string (not a failure);
only an unopenable PDF makes the call fail (return `None`); and the spec's
3-page example with a failing page 2 yields the expected non-empty string
containing the three page markers. -/
theorem C8_extract_text_page_markers :
    (∀ ps, extract_text_from_pdf (.pages ps) = some (py_strip (pages_concat ps 0))) ∧
    extract_text_from_pdf (.pages []) = some "" ∧
    (∀ m, extract_text_from_pdf (.unreadable m) = none) ∧
    extract_text_from_pdf (.pages [.ok "alpha", .error "boom", .ok "gamma"]) =
      some "--- Page 1 ---\nalpha\n--- Page 2 (Error extracting text) ---\n\n--- Page 3 ---\ngamma" ∧
    "--- Page 1 ---\nalpha\n--- Page 2 (Error extracting text) ---\n\n--- Page 3 ---\ngamma" ≠ "" ∧
    (∃ a b : String,
      "--- Page 1 ---\nalpha\n--- Page 2 (Error extracting text) ---\n\n--- Page 3 ---\ngamma" =
        a ++ "--- Page 2 (Error extracting text) ---" ++ b) := by
  refine ⟨?_, rfl, fun _ => rfl, rfl, by decide, ?_⟩
  · intro ps
    simp [extract_text_from_pdf, extract_loop_eq_concat]
  · exact ⟨"--- Page 1 ---\nalpha\n", "\n\n--- Page 3 ---\ngamma", rfl⟩

/-- C9: the invariant "if `access_token` is present then `issued_at` is
present" holds initially and is preserved by `get_access_token`, by the
token exchange on success and on failure, by `set_token` and by `clear`. -/
theorem C9_invariant_preserved :
    token_invariant initialTokenData ∧
    (∀ st td resp now, token_invariant td →
      token_invariant (get_access_token st td resp now).2) ∧
    (∀ td resp now, token_invariant td →
      token_invariant (fetch_token_client_credentials td resp now).2) ∧
    (∀ st td tok url ei now, token_invariant (set_token st td tok url ei now)) ∧
    (∀ td, token_invariant (clear_token td)) := by
  refine ⟨fun h => by simp [initialTokenData] at h, ?_, ?_, ?_, ?_⟩
  · intro st td resp now h
    rcases get_access_token_store_cases st td resp now with hc | hc <;> rw [hc]
    · exact h
    · exact fetch_preserves_invariant td resp now h
  · exact fetch_preserves_invariant
  · intro st td tok url ei now
    intro _
    rfl
  · intro td
    intro h
    simp [clear_token] at h

/-- C9 witness: preservation through a failing `get_access_token` call from
the initial store. -/
theorem C9_invariant_preserved_witness :
    token_invariant
      (get_access_token
        { salesforce_consumer_key := some "k", salesforce_consumer_secret := some "s",
          salesforce_instance_url := none }
        initialTokenData (.netError "down") 0).2 :=
  C9_invariant_preserved.2.1
    { salesforce_consumer_key := some "k", salesforce_consumer_secret := some "s",
      salesforce_instance_url := none }
    initialTokenData (.netError "down") 0 (fun h => by simp [initialTokenData] at h)

/-- C10: when the raw reply contains both braces but the last `}` sits at or
before the first `{`, the `end_idx > start_idx` guard fails, no JSON parse
is attempted, and the same `{effective_date: null, total_amount: null,
error: "Could not parse response"}` dictionary as for a brace-free reply is
returned — with no `raw_response` field. -/
theorem C10_close_at_or_before_open (d text : String)
    (h1 : '{' ∈ text.data) (h2 : '}' ∈ text.data)
    (h3 : py_rfind text '}' ≤ py_find text '{') :
    parse_model_reply d text = couldNotParseResult ∧
    couldNotParseResult.getField "raw_response" = none := by
  refine ⟨?_, rfl⟩
  rcases py_find_mem_spec h1 with ⟨i, hfi, hi, hci⟩
  rcases py_rfind_mem_spec h2 with ⟨j, hfj, hj, hcj⟩
  have hij : j ≠ i := by
    rintro rfl
    have hcj2 : text.data.get ⟨j, hi⟩ = '}' := hcj
    rw [hci] at hcj2
    exact absurd hcj2 (by decide)
  have hcond : ¬(py_find text '{' ≠ -1 ∧ py_rfind text '}' + 1 > py_find text '{') := by
    rintro ⟨-, hgt⟩
    rw [hfi, hfj] at hgt
    rw [hfi, hfj] at h3
    omega
  simp only [parse_model_reply]
  rw [if_neg hcond]

/-- C10 witness: the reply `"} {"` yields the "Could not parse response"
dictionary. -/
theorem C10_close_at_or_before_open_witness :
    parse_model_reply "" "\x7d \x7b" = couldNotParseResult :=
  (C10_close_at_or_before_open "" "\x7d \x7b" (by decide) (by decide) (by decide)).1
